import Mathlib

/-!
Verification of the invoice totals and share-token engine of the
Solar_Calculator repository, embedded from
`to-integrate-into-calculator/repositories/invoice_repo.py` together with the
configuration defaults of `config.py` and the HTTP status mapping of
`api/invoice_api.py`.  Monetary `Decimal` values are embedded as `ℚ`
(the amounts involved are small, so `Decimal` arithmetic is exact),
`Integer` columns as `ℕ`/`ℤ`, timestamps as `ℤ`, and nullable columns as
`Option`.  Randomness (`secrets.token_hex`, `token_urlsafe`) and the clock
(`datetime.now`) are passed in explicitly as parameters.
-/

/-- Python truthiness of an `Optional[str]`: `None` and `""` are falsy. -/
def pyTruthy : Option String → Bool
  | some s => !(s == "")
  | none => false

/-- Python truthiness of an `Optional[Decimal]`: `None` and `Decimal(0)` are falsy. -/
def pyTruthyQ : Option ℚ → Bool
  | some a => decide (a ≠ 0)
  | none => false

/-- Python truthiness of an `Optional[int]`: `None` and `0` are falsy. -/
def pyTruthyZ : Option ℤ → Bool
  | some k => decide (k ≠ 0)
  | none => false

/-- `o if o else d` for strings, i.e. the Python `or` chain element. -/
def pyOrS : Option String → String → String
  | some s, d => if s = "" then d else s
  | none, d => d

/-- Python `a or b` on two `Decimal`s: `a` when truthy (nonzero), else `b`. -/
def pyOrQ (a b : ℚ) : ℚ :=
  if a = 0 then b else a

/-- Extract an optional string, defaulting to the empty string. -/
def orEmpty : Option String → String
  | some s => s
  | none => ""

/-- The character `0`, used for zero padding. -/
def zeroChar : Char := '0'

/-- Reversed (little-endian) decimal digits of `n`, driven by explicit fuel so
that the definition is structural and kernel-reducible.  Any `fuel > n`
exhausts the digits. -/
def natDigitsRev : ℕ → ℕ → List ℕ
  | 0, _ => []
  | fuel + 1, n => if n = 0 then [] else n % 10 :: natDigitsRev fuel (n / 10)

/-- Embedding of Python `str(n)` for a natural number: its decimal digits. -/
def strOfNat (n : ℕ) : String :=
  if n = 0 then ⟨[zeroChar]⟩
  else ⟨((natDigitsRev (n + 1) n).reverse).map (fun d => Char.ofNat (48 + d))⟩

/-- Embedding of Python `str.zfill(w)`: left-pad with `'0'` up to width `w`
(digit-only inputs arise here, so the sign-handling of `zfill` is moot). -/
def zfill (w : ℕ) (s : String) : String :=
  ⟨List.replicate (w - s.length) zeroChar ++ s.data⟩

/-- Fuel-driven deletion of every (non-overlapping, left-to-right) occurrence
of `pat`: the workhorse of Python `s.replace(pat, "")`. -/
def replaceDelAux (pat : List Char) : ℕ → List Char → List Char
  | 0, s => s
  | fuel + 1, s =>
    if pat ≠ [] ∧ pat.isPrefixOf s then replaceDelAux pat fuel (s.drop pat.length)
    else
      match s with
      | [] => []
      | c :: t => c :: replaceDelAux pat fuel t

/-- Embedding of Python `s.replace(pat, "")`. -/
def pyReplaceDel (s pat : String) : String :=
  ⟨replaceDelAux pat.data (s.data.length + 1) s.data⟩

/-- Strict lexicographic comparison of character lists, as used by the SQL
`ORDER BY invoice_number` string ordering. -/
def lexLt : List Char → List Char → Bool
  | [], [] => false
  | [], _ :: _ => true
  | _ :: _, [] => false
  | a :: as, b :: bs => if a < b then true else if b < a then false else lexLt as bs

/-- Embedding of `query.order_by(col.desc()).first()` on a string column:
the lexicographically greatest element, if any. -/
def maxByDesc (l : List String) : Option String :=
  l.foldl
    (fun acc s =>
      match acc with
      | none => some s
      | some m => if lexLt m.data s.data then some s else some m)
    none

/-- Embedding of Python `int(s)` on the digit strings arising from invoice
numbers (`try: int(...) except: ...` failure is `none`). -/
def parsePyInt (s : String) : Option ℕ :=
  if s.data ≠ [] ∧ s.data.all (fun c => c.isDigit) then
    some (s.data.foldl (fun a c => 10 * a + (c.toNat - 48)) 0)
  else none

/-! ### Configuration defaults (`config.py`, `InvoiceSettings`) -/

/-- `INVOICE_NUMBER_PREFIX` default. -/
def invoiceNumberPrefixCfg : String := "INV"

/-- `INVOICE_NUMBER_LENGTH` default. -/
def invoiceNumberLengthCfg : ℕ := 6

/-- `DEFAULT_SST_RATE` default (`Decimal(str(8.0)) = 8`). -/
def defaultSstRateCfg : ℚ := 8

/-- `SHARE_LINK_EXPIRY_DAYS` default. -/
def shareLinkExpiryDaysCfg : ℤ := 7

/-! ### Data model (`models/invoice_models.py`) -/

/-- The `package` table.  Only the columns read by `create_on_the_fly` are
kept.  The embedding takes `price` as present (non-NULL), which every claim
presupposes ("a package of price P"). -/
structure Package where
  bubble_id : String
  name : Option String
  price : ℚ
  invoice_desc : Option String
deriving DecidableEq

/-- The `customer` table (columns touched by `create_on_the_fly`). -/
structure Customer where
  id : ℕ
  customer_id : String
  name : String
  phone : Option String
  email : Option String
  address : Option String
  created_by : Option ℕ
deriving DecidableEq

/-- The `voucher` table (columns read during voucher resolution). -/
structure Voucher where
  bubble_id : String
  voucher_code : String
  active : Bool
  discount_amount : Option ℚ
  discount_percent : Option ℤ
deriving DecidableEq

/-- The `invoice_template` table (columns read during template/SST
resolution). -/
structure InvoiceTemplate where
  bubble_id : String
  apply_sst : Bool
  active : Bool
  is_default : Bool
deriving DecidableEq

/-- The `invoice_new` table. -/
structure InvoiceNew where
  bubble_id : String
  invoice_number : String
  invoice_date : String
  customer_id : Option ℕ
  customer_name_snapshot : String
  customer_phone_snapshot : Option String
  customer_address_snapshot : Option String
  customer_email_snapshot : Option String
  package_id : String
  package_name_snapshot : Option String
  template_id : Option String
  subtotal : ℚ
  agent_markup : ℚ
  sst_rate : ℚ
  sst_amount : ℚ
  discount_amount : ℚ
  discount_fixed : ℚ
  discount_percent : ℚ
  voucher_code : Option String
  voucher_amount : ℚ
  total_amount : ℚ
  status : String
  created_by : Option ℕ
  share_token : String
  share_enabled : Bool
  share_expires_at : Option ℤ
  share_access_count : ℕ
  viewed_at : Option ℤ
deriving DecidableEq

/-- The `invoice_new_item` table. -/
structure InvoiceNewItem where
  bubble_id : String
  invoice_id : String
  description : String
  qty : ℚ
  unit_price : ℚ
  total_price : ℚ
  item_type : String
  sort_order : ℕ
deriving DecidableEq

/-- The relational store visible to `InvoiceRepository` (one list per table). -/
structure Db where
  invoices : List InvoiceNew
  items : List InvoiceNewItem
  packages : List Package
  customers : List Customer
  templates : List InvoiceTemplate
  vouchers : List Voucher
deriving DecidableEq

/-- The randomness consumed by one `create_on_the_fly` call:
`secrets.token_hex` tags for the new ids and `secrets.token_urlsafe(16)` for
the share token, plus the row id the database assigns to a new customer. -/
structure Entropy where
  invTag : String
  shareTok : String
  custTag : String
  i0 : String
  i1 : String
  i2 : String
  i3 : String
  i4 : String
  custRow : ℕ
deriving DecidableEq

/-- The keyword arguments of `create_on_the_fly`. -/
structure CreateParams where
  package_id : String
  discount_fixed : ℚ
  discount_percent : ℚ
  apply_sst : Bool
  template_id : Option String
  voucher_code : Option String
  agent_markup : ℚ
  customer_name : Option String
  customer_phone : Option String
  customer_address : Option String
  epp_fee_amount : Option ℚ
  epp_fee_description : Option String
  created_by : Option ℕ
deriving DecidableEq

/-- The customer snapshot computed in step 2 of `create_on_the_fly`. -/
structure CustSnap where
  customer_id : Option ℕ
  name : String
  phone : Option String
  address : Option String
  email : Option String
deriving DecidableEq

/-- The only exception `create_on_the_fly` raises itself (`ValueError`). -/
inductive PyErr where
  | valueError (msg : String)
deriving DecidableEq

/-! ### Repository operations (`repositories/invoice_repo.py`) -/

/-- The `f"{PREFIX}-{num_str}"` format of `_generate_invoice_number`. -/
def mkInvoiceNumber (n : ℕ) : String :=
  invoiceNumberPrefixCfg ++ "-" ++ zfill invoiceNumberLengthCfg (strOfNat n)

/-- Embedding of `InvoiceRepository._generate_invoice_number`: take the
string-wise greatest `invoice_number`, strip the prefix, parse, and add one
(`1` when the table is empty or parsing fails). -/
def generate_invoice_number (db : Db) : String :=
  match maxByDesc (db.invoices.map (fun i => i.invoice_number)) with
  | none => mkInvoiceNumber 1
  | some last =>
    match parsePyInt (pyReplaceDel last (invoiceNumberPrefixCfg ++ "-")) with
    | some n => mkInvoiceNumber (n + 1)
    | none => mkInvoiceNumber 1

/-- Embedding of `InvoiceRepository._calculate_invoice_totals`, acting on the
invoice's related items (with the fallback query by `invoice_id` when that
collection is empty). -/
def calculate_invoice_totals (db : Db) (inv : InvoiceNew)
    (relItems : List InvoiceNewItem) : InvoiceNew :=
  let items :=
    if relItems.isEmpty then db.items.filter (fun it => it.invoice_id == inv.bubble_id)
    else relItems
  let subtotal := (items.map (fun it => it.total_price)).sum
  let discount_from_items :=
    ((items.filter (fun it => it.item_type == "discount")).map
      (fun it => |it.total_price|)).sum
  let voucher_from_items :=
    ((items.filter (fun it => it.item_type == "voucher")).map
      (fun it => |it.total_price|)).sum
  let sst := if 0 < subtotal then subtotal * (inv.sst_rate / 100) else 0
  { inv with
    subtotal := subtotal
    discount_amount := discount_from_items
    voucher_amount := voucher_from_items
    sst_amount := sst
    total_amount := subtotal + sst }

/-- Embedding of step 3 of `create_on_the_fly` (voucher resolution): a truthy
code is looked up among active vouchers; a truthy `discount_amount` wins,
else a truthy `discount_percent` of the package price, else zero. -/
def resolve_voucher_amount (db : Db) (vc : Option String) (price : ℚ) : ℚ :=
  if pyTruthy vc then
    match db.vouchers.find? (fun v => v.voucher_code == orEmpty vc && v.active) with
    | some v =>
      if pyTruthyQ v.discount_amount then v.discount_amount.getD 0
      else if pyTruthyZ v.discount_percent then
        price * ((v.discount_percent.getD 0 : ℤ) : ℚ) / 100
      else 0
    | none => 0
  else 0

/-- Embedding of the template-defaulting half of step 4 of
`create_on_the_fly`. -/
def resolve_template_id (db : Db) (tid0 : Option String) : Option String :=
  if pyTruthy tid0 then tid0
  else
    match db.templates.find? (fun t => t.is_default && t.active) with
    | some t => some t.bubble_id
    | none => tid0

/-- Embedding of the SST half of step 4 of `create_on_the_fly`: the default
rate when `apply_sst`, zeroed when the resolved template exists and disables
SST. -/
def resolve_sst_rate (db : Db) (apply_sst : Bool) (tid : Option String) : ℚ :=
  if apply_sst then
    if pyTruthy tid then
      match db.templates.find? (fun t => t.bubble_id == orEmpty tid) with
      | some t => if t.apply_sst then defaultSstRateCfg else 0
      | none => defaultSstRateCfg
    else defaultSstRateCfg
  else 0

/-- Embedding of step 2 of `create_on_the_fly` (customer handling): a truthy
name is looked up (created and flushed when absent); otherwise the literal
placeholder name is used.  Returns the possibly-extended store and the
snapshot fields. -/
def resolve_customer (db : Db) (ent : Entropy) (p : CreateParams) : Db × CustSnap :=
  if pyTruthy p.customer_name then
    match db.customers.find? (fun c => c.name == orEmpty p.customer_name) with
    | some c => (db, ⟨some c.id, c.name, c.phone, c.address, c.email⟩)
    | none =>
      let newC : Customer :=
        { id := ent.custRow
          customer_id := "cust_" ++ ent.custTag
          name := orEmpty p.customer_name
          phone := p.customer_phone
          email := none
          address := p.customer_address
          created_by := p.created_by }
      ({ db with customers := db.customers ++ [newC] },
        ⟨some newC.id, newC.name, newC.phone, newC.address, newC.email⟩)
  else (db, ⟨none, "Sample Quotation", p.customer_phone, p.customer_address, none⟩)

/-- Stand-in for `strftime("%Y-%m-%d")`: an injective rendering of the clock
value (calendar formatting is irrelevant to every property below). -/
def dateStr (t : ℤ) : String :=
  "date-" ++ toString t

/-- The `InvoiceNew(...)` construction of step 5 of `create_on_the_fly`
(`hasattr(package, 'name')` always holds for the model, so the name snapshot
is `package.name`). -/
def mkNewInvoice (ent : Entropy) (now : ℤ) (p : CreateParams) (cs : CustSnap)
    (pkg : Package) (tid : Option String) (rate : ℚ) (invNum : String)
    (va : ℚ) : InvoiceNew :=
  { bubble_id := "inv_" ++ ent.invTag
    invoice_number := invNum
    invoice_date := dateStr now
    customer_id := cs.customer_id
    customer_name_snapshot := cs.name
    customer_phone_snapshot := cs.phone
    customer_address_snapshot := cs.address
    customer_email_snapshot := cs.email
    package_id := p.package_id
    package_name_snapshot := pkg.name
    template_id := tid
    subtotal := 0
    agent_markup := p.agent_markup
    sst_rate := rate
    sst_amount := 0
    discount_amount := 0
    discount_fixed := p.discount_fixed
    discount_percent := p.discount_percent
    voucher_code := p.voucher_code
    voucher_amount := va
    total_amount := 0
    status := "draft"
    created_by := p.created_by
    share_token := ent.shareTok
    share_enabled := true
    share_expires_at := some (now + shareLinkExpiryDaysCfg * 86400)
    share_access_count := 0
    viewed_at := none }

/-- Embedding of steps 6-6d of `create_on_the_fly`: the package line item,
the conditional fixed and percent discount items (sort orders 100 and
100/101 via the mutated counter), the conditional voucher item at 101, and
the conditional EPP fee item at 200. -/
def build_items (ent : Entropy) (invId : String) (pkg : Package)
    (p : CreateParams) (va : ℚ) : List InvoiceNewItem :=
  let unit_price := pyOrQ pkg.price 0 + p.agent_markup
  let fallbackDesc : String := "Package Item"
  let pkgItem : InvoiceNewItem :=
    { bubble_id := "item_" ++ ent.i0
      invoice_id := invId
      description := pyOrS pkg.invoice_desc (pyOrS pkg.name fallbackDesc)
      qty := 1
      unit_price := unit_price
      total_price := unit_price
      item_type := "package"
      sort_order := 0 }
  let fixedItems : List InvoiceNewItem :=
    if p.discount_fixed ≠ 0 ∧ 0 < p.discount_fixed then
      [{ bubble_id := "item_" ++ ent.i1
         invoice_id := invId
         description := "Discount (RM " ++ toString p.discount_fixed ++ ")"
         qty := 1
         unit_price := -p.discount_fixed
         total_price := -p.discount_fixed
         item_type := "discount"
         sort_order := 100 }]
    else []
  let pctSort : ℕ := if p.discount_fixed ≠ 0 ∧ 0 < p.discount_fixed then 101 else 100
  let pctItems : List InvoiceNewItem :=
    if p.discount_percent ≠ 0 ∧ 0 < p.discount_percent then
      [{ bubble_id := "item_" ++ ent.i2
         invoice_id := invId
         description := "Discount (" ++ toString p.discount_percent ++ "%)"
         qty := 1
         unit_price := -(pkg.price * (p.discount_percent / 100))
         total_price := -(pkg.price * (p.discount_percent / 100))
         item_type := "discount"
         sort_order := pctSort }]
    else []
  let voucherItems : List InvoiceNewItem :=
    if pyTruthy p.voucher_code = true ∧ 0 < va then
      [{ bubble_id := "item_" ++ ent.i3
         invoice_id := invId
         description := "Voucher (" ++ orEmpty p.voucher_code ++ ")"
         qty := 1
         unit_price := -va
         total_price := -va
         item_type := "voucher"
         sort_order := 101 }]
    else []
  let feeItems : List InvoiceNewItem :=
    if pyTruthyQ p.epp_fee_amount = true ∧ 0 < p.epp_fee_amount.getD 0 ∧
        pyTruthy p.epp_fee_description = true then
      [{ bubble_id := "item_" ++ ent.i4
         invoice_id := invId
         description := "Bank Processing Fee (" ++ orEmpty p.epp_fee_description ++ ")"
         qty := 1
         unit_price := p.epp_fee_amount.getD 0
         total_price := p.epp_fee_amount.getD 0
         item_type := "epp_fee"
         sort_order := 200 }]
    else []
  [pkgItem] ++ fixedItems ++ pctItems ++ voucherItems ++ feeItems

/-- Embedding of `InvoiceRepository.create_on_the_fly`.  The unknown-package
`ValueError` is raised before any row is written, so that exit returns the
store unchanged; otherwise the committed transaction appends the invoice,
its items, and any newly created customer. -/
def create_on_the_fly (db : Db) (ent : Entropy) (now : ℤ) (p : CreateParams) :
    Except PyErr (InvoiceNew × List InvoiceNewItem) × Db :=
  match db.packages.find? (fun q => q.bubble_id == p.package_id) with
  | none => (Except.error (PyErr.valueError ("Package not found: " ++ p.package_id)), db)
  | some package =>
    let dbcs := resolve_customer db ent p
    let va := resolve_voucher_amount db p.voucher_code package.price
    let tid := resolve_template_id db p.template_id
    let rate := resolve_sst_rate db p.apply_sst tid
    let invNum := generate_invoice_number dbcs.1
    let inv0 := mkNewInvoice ent now p dbcs.2 package tid rate invNum va
    let newItems := build_items ent inv0.bubble_id package p va
    let inv1 := calculate_invoice_totals dbcs.1 inv0 newItems
    (Except.ok (inv1, newItems),
      { dbcs.1 with
        invoices := dbcs.1.invoices ++ [inv1]
        items := dbcs.1.items ++ newItems })

/-- Embedding of `InvoiceRepository.get_by_id`. -/
def get_by_id (db : Db) (bid : String) : Option InvoiceNew :=
  db.invoices.find? (fun i => i.bubble_id == bid)

/-- Embedding of `InvoiceRepository.get_by_share_token`. -/
def get_by_share_token (db : Db) (now : ℤ) (token : String) : Option InvoiceNew :=
  match db.invoices.find? (fun i => i.share_token == token) with
  | some inv =>
    if inv.share_enabled then
      match inv.share_expires_at with
      | some t => if t < now then none else some inv
      | none => some inv
    else none
  | none => none

/-- Apply `f` to the first list element satisfying `p` (the row
`get_by_id` hands back), leaving everything else unchanged. -/
def updateFirst (p : α → Bool) (f : α → α) : List α → List α
  | [] => []
  | x :: xs => if p x then f x :: xs else x :: updateFirst p f xs

/-- Embedding of `InvoiceRepository.record_view`: set the viewed timestamp
and bump the access counter on the found invoice; silently do nothing when
the id is unknown. -/
def record_view (db : Db) (now : ℤ) (bid : String) : Db :=
  match get_by_id db bid with
  | none => db
  | some _ =>
    { db with
      invoices :=
        updateFirst (fun i => i.bubble_id == bid)
          (fun i =>
            { i with
              viewed_at := some now
              share_access_count := i.share_access_count + 1 })
          db.invoices }

/-- Embedding of the HTTP layer of `api/invoice_api.py`
(`create_invoice_on_the_fly`): a `ValueError` becomes a 400 client error,
success a 200 response. -/
def api_create_invoice (db : Db) (ent : Entropy) (now : ℤ) (p : CreateParams) :
    ℕ × Db :=
  match create_on_the_fly db ent now p with
  | (Except.ok _, db') => (200, db')
  | (Except.error (PyErr.valueError _), db') => (400, db')

/-! ### Concrete stores used by witnesses and counterexamples -/

/-- A fixed entropy bundle for concrete runs. -/
def exEnt : Entropy :=
  { invTag := "aa"
    shareTok := "sharetok"
    custTag := "cc"
    i0 := "i0"
    i1 := "i1"
    i2 := "i2"
    i3 := "i3"
    i4 := "i4"
    custRow := 1 }

/-- The spec's scenario package: price 1000. -/
def pkgW : Package :=
  { bubble_id := "pkg1"
    name := some (r"Solar Package")
    price := 1000
    invoice_desc := none }

/-- A flat-100 voucher. -/
def vchW : Voucher :=
  { bubble_id := "v1"
    voucher_code := "SAVE100"
    active := true
    discount_amount := some 100
    discount_percent := none }

/-- A default active template that permits SST. -/
def tplW : InvoiceTemplate :=
  { bubble_id := "t1"
    apply_sst := true
    active := true
    is_default := true }

/-- Store for the spec scenario: the package, the flat voucher, and the
default SST-permitting template. -/
def exDbW : Db :=
  { invoices := []
    items := []
    packages := [pkgW]
    customers := []
    templates := [tplW]
    vouchers := [vchW] }

/-- Parameters of the spec scenario: package 1000, markup 50, voucher flat
100, tax enabled. -/
def cpW : CreateParams :=
  { package_id := "pkg1"
    discount_fixed := 0
    discount_percent := 0
    apply_sst := true
    template_id := none
    voucher_code := some (r"SAVE100")
    agent_markup := 50
    customer_name := none
    customer_phone := none
    customer_address := none
    epp_fee_amount := none
    epp_fee_description := none
    created_by := none }

/-- A cheap package used by the negative-subtotal runs. -/
def pkg2 : Package :=
  { bubble_id := "pkg2"
    name := none
    price := 100
    invoice_desc := none }

/-- Store with the cheap package and the SST-permitting default template. -/
def exDb2 : Db :=
  { invoices := []
    items := []
    packages := [pkg2]
    customers := []
    templates := [tplW]
    vouchers := [] }

/-- Fixed discount 200 against a price-100 package, SST enabled: drives the
subtotal to -100. -/
def cp2 : CreateParams :=
  { package_id := "pkg2"
    discount_fixed := 200
    discount_percent := 0
    apply_sst := true
    template_id := none
    voucher_code := none
    agent_markup := 0
    customer_name := none
    customer_phone := none
    customer_address := none
    epp_fee_amount := none
    epp_fee_description := none
    created_by := none }

/-- Same overdiscounted run but with SST off (claim C9's negative total). -/
def cp9 : CreateParams :=
  { package_id := "pkg2"
    discount_fixed := 200
    discount_percent := 0
    apply_sst := false
    template_id := none
    voucher_code := none
    agent_markup := 0
    customer_name := none
    customer_phone := none
    customer_address := none
    epp_fee_amount := none
    epp_fee_description := none
    created_by := none }

/-- Store without the requested package (claim C4). -/
def exDb0 : Db :=
  { invoices := []
    items := []
    packages := []
    customers := []
    templates := []
    vouchers := [] }

/-- Parameters naming a package id that resolves to nothing. -/
def cp4 : CreateParams :=
  { package_id := "nope"
    discount_fixed := 0
    discount_percent := 0
    apply_sst := false
    template_id := none
    voucher_code := none
    agent_markup := 0
    customer_name := none
    customer_phone := none
    customer_address := none
    epp_fee_amount := none
    epp_fee_description := none
    created_by := none }

/-- A voucher whose flat amount is set to zero while its percent is 50
(claim C7's truthiness boundary). -/
def v7 : Voucher :=
  { bubble_id := "v7"
    voucher_code := "ZERO"
    active := true
    discount_amount := some 0
    discount_percent := some 50 }

/-- Store holding the zero-flat voucher and the cheap package. -/
def exDb7 : Db :=
  { invoices := []
    items := []
    packages := [pkg2]
    customers := []
    templates := []
    vouchers := [v7] }

/-- Create against `exDb7` with the zero-flat voucher applied. -/
def cp7 : CreateParams :=
  { package_id := "pkg2"
    discount_fixed := 0
    discount_percent := 0
    apply_sst := false
    template_id := none
    voucher_code := some (r"ZERO")
    agent_markup := 0
    customer_name := none
    customer_phone := none
    customer_address := none
    epp_fee_amount := none
    epp_fee_description := none
    created_by := none }

/-- Params exercising every item kind at once (claim C8's witness): both
discounts, the flat voucher, and an EPP fee. -/
def cp8 : CreateParams :=
  { package_id := "pkg1"
    discount_fixed := 10
    discount_percent := 5
    apply_sst := true
    template_id := none
    voucher_code := some (r"SAVE100")
    agent_markup := 0
    customer_name := none
    customer_phone := none
    customer_address := none
    epp_fee_amount := some 20
    epp_fee_description := some (r"6 months")
    created_by := none }

/-- A stored invoice with only the share- and numbering-relevant fields
populated (the rest are inert defaults). -/
def mkInvEx (num tok bid : String) (enabled : Bool) (expAt : Option ℤ)
    (cnt : ℕ) : InvoiceNew :=
  { bubble_id := bid
    invoice_number := num
    invoice_date := ""
    customer_id := none
    customer_name_snapshot := ""
    customer_phone_snapshot := none
    customer_address_snapshot := none
    customer_email_snapshot := none
    package_id := ""
    package_name_snapshot := none
    template_id := none
    subtotal := 0
    agent_markup := 0
    sst_rate := 0
    sst_amount := 0
    discount_amount := 0
    discount_fixed := 0
    discount_percent := 0
    voucher_code := none
    voucher_amount := 0
    total_amount := 0
    status := "draft"
    created_by := none
    share_token := tok
    share_enabled := enabled
    share_expires_at := expAt
    share_access_count := cnt
    viewed_at := none }

/-- Invoice numbered `INV-999999` (the last padded number). -/
def inv3a : InvoiceNew := mkInvEx (r"INV-999999") (r"t3a") (r"b3a") true none 0

/-- Invoice numbered `INV-1000000` (the first overflowing number). -/
def inv3b : InvoiceNew := mkInvEx (r"INV-1000000") (r"t3b") (r"b3b") true none 0

/-- Store whose highest invoice number is `INV-999999`. -/
def exDb3a : Db :=
  { invoices := [inv3a]
    items := []
    packages := []
    customers := []
    templates := []
    vouchers := [] }

/-- The same store after the generated `INV-1000000` is persisted. -/
def exDb3b : Db :=
  { invoices := [inv3a, inv3b]
    items := []
    packages := []
    customers := []
    templates := []
    vouchers := [] }

/-- Shared invoice whose expiry equals the probe instant (claim C5). -/
def inv5 : InvoiceNew := mkInvEx (r"INV-000005") (r"tok5") (r"b5") true (some 5) 0

/-- Store holding only `inv5`. -/
def exDb5 : Db :=
  { invoices := [inv5]
    items := []
    packages := []
    customers := []
    templates := []
    vouchers := [] }

/-- Invoice with three recorded views (claim C6's witness). -/
def inv6 : InvoiceNew := mkInvEx (r"INV-000006") (r"tok6") (r"b6") true none 3

/-- Store holding only `inv6`. -/
def exDb6 : Db :=
  { invoices := [inv6]
    items := []
    packages := []
    customers := []
    templates := []
    vouchers := [] }

/-! ### Shared lemmas about the embedded operations -/

/-- `a or Decimal(0)` is the identity on `ℚ`. -/
theorem pyOrQ_zero (a : ℚ) : pyOrQ a 0 = a := by
  unfold pyOrQ
  split <;> simp_all

/-- Shape of `create_on_the_fly` once the package lookup succeeds. -/
theorem create_on_the_fly_ok (db : Db) (ent : Entropy) (now : ℤ) (p : CreateParams)
    (pkg : Package)
    (hpkg : db.packages.find? (fun q => q.bubble_id == p.package_id) = some pkg) :
    create_on_the_fly db ent now p =
      (let dbcs := resolve_customer db ent p
       let va := resolve_voucher_amount db p.voucher_code pkg.price
       let tid := resolve_template_id db p.template_id
       let rate := resolve_sst_rate db p.apply_sst tid
       let invNum := generate_invoice_number dbcs.1
       let inv0 := mkNewInvoice ent now p dbcs.2 pkg tid rate invNum va
       let newItems := build_items ent inv0.bubble_id pkg p va
       let inv1 := calculate_invoice_totals dbcs.1 inv0 newItems
       (Except.ok (inv1, newItems),
         { dbcs.1 with
           invoices := dbcs.1.invoices ++ [inv1]
           items := dbcs.1.items ++ newItems })) := by
  unfold create_on_the_fly
  rw [hpkg]

/-- The items a `create_on_the_fly` run builds are never empty: the package
item always leads. -/
theorem build_items_ne_nil (ent : Entropy) (invId : String) (pkg : Package)
    (p : CreateParams) (va : ℚ) : build_items ent invId pkg p va ≠ [] := by
  unfold build_items
  simp

/-- On a nonempty related-items collection, `_calculate_invoice_totals`
stores the plain sum of the item totals as the subtotal. -/
theorem calculate_invoice_totals_subtotal (db : Db) (inv : InvoiceNew)
    (items : List InvoiceNewItem) (h : items ≠ []) :
    (calculate_invoice_totals db inv items).subtotal =
      (items.map (fun it => it.total_price)).sum := by
  cases items with
  | nil => exact absurd rfl h
  | cons a l => simp [calculate_invoice_totals]

/-- Field bookkeeping of `_calculate_invoice_totals`: the stored SST and
total in terms of the stored subtotal and the untouched rate (the fallback
branch for an empty collection produces the same shape). -/
theorem calculate_invoice_totals_fields (db : Db) (inv : InvoiceNew)
    (items : List InvoiceNewItem) :
    (calculate_invoice_totals db inv items).sst_rate = inv.sst_rate ∧
    (calculate_invoice_totals db inv items).sst_amount =
      (if 0 < (calculate_invoice_totals db inv items).subtotal then
        (calculate_invoice_totals db inv items).subtotal * (inv.sst_rate / 100)
      else 0) ∧
    (calculate_invoice_totals db inv items).total_amount =
      (calculate_invoice_totals db inv items).subtotal +
        (calculate_invoice_totals db inv items).sst_amount := by
  cases items with
  | nil => simp [calculate_invoice_totals]
  | cons a l => simp [calculate_invoice_totals]

/-- An untruthy voucher code resolves to amount zero. -/
theorem resolve_voucher_amount_untruthy (db : Db) (vc : Option String) (price : ℚ)
    (h : pyTruthy vc = false) : resolve_voucher_amount db vc price = 0 := by
  unfold resolve_voucher_amount
  simp [h]

/-- Sum of the totals of the items built in steps 6-6d, with each conditional
line contributing under exactly the source's guard. -/
theorem build_items_sum (ent : Entropy) (invId : String) (pkg : Package)
    (p : CreateParams) (va : ℚ) :
    ((build_items ent invId pkg p va).map (fun it => it.total_price)).sum =
      (pyOrQ pkg.price 0 + p.agent_markup)
      + (if p.discount_fixed ≠ 0 ∧ 0 < p.discount_fixed then -p.discount_fixed else 0)
      + (if p.discount_percent ≠ 0 ∧ 0 < p.discount_percent then
          -(pkg.price * (p.discount_percent / 100)) else 0)
      + (if pyTruthy p.voucher_code = true ∧ 0 < va then -va else 0)
      + (if pyTruthyQ p.epp_fee_amount = true ∧ 0 < p.epp_fee_amount.getD 0 ∧
            pyTruthy p.epp_fee_description = true then p.epp_fee_amount.getD 0 else 0) := by
  unfold build_items
  split_ifs <;> simp <;> ring

/-- Decomposition of `updateFirst` around the first hit of `find?`: the
prefix is untouched and miss-free, the hit is rewritten, the tail is
untouched. -/
theorem updateFirst_decomp {α : Type} (p : α → Bool) (f : α → α) (l : List α)
    (a : α) (h : l.find? p = some a) :
    ∃ pre post, l = pre ++ a :: post ∧ (∀ x ∈ pre, p x = false) ∧
      updateFirst p f l = pre ++ f a :: post := by
  induction l with
  | nil => simp at h
  | cons x xs ih =>
    by_cases hx : p x
    · rw [List.find?_cons_of_pos _ hx] at h
      obtain rfl : x = a := by injection h
      exact ⟨[], xs, rfl, by simp, by simp [updateFirst, hx]⟩
    · rw [List.find?_cons_of_neg _ hx] at h
      obtain ⟨pre, post, hl, hpre, hupd⟩ := ih h
      refine ⟨x :: pre, post, by simp [hl], ?_, ?_⟩
      · intro y hy
        rcases List.mem_cons.mp hy with rfl | hy
        · simpa using hx
        · exact hpre y hy
      · simp [updateFirst, hx, hupd]

/-! ### Claim theorems -/

/-- Claim C1: for every invoice created by `create_on_the_fly` from an
existing package of price `P`, with markup `m ≥ 0`, fixed discount `f ≥ 0`,
percent discount `p ∈ [0,100]`, resolved voucher amount `v` and optional fee
amount (carrying a description when positive), the stored subtotal equals
`(P + m) - f - P*p/100 - v + fee`, absent adjustments contributing zero. -/
theorem claim_C1_subtotal (db : Db) (ent : Entropy) (now : ℤ) (p : CreateParams)
    (pkg : Package) (inv : InvoiceNew) (items : List InvoiceNewItem) (db' : Db)
    (hpkg : db.packages.find? (fun q => q.bubble_id == p.package_id) = some pkg)
    (hm : 0 ≤ p.agent_markup) (hf : 0 ≤ p.discount_fixed)
    (hp0 : 0 ≤ p.discount_percent) (hp1 : p.discount_percent ≤ 100)
    (hv : 0 ≤ resolve_voucher_amount db p.voucher_code pkg.price)
    (hfee : ∀ a, p.epp_fee_amount = some a →
      0 ≤ a ∧ (0 < a → pyTruthy p.epp_fee_description = true))
    (hres : create_on_the_fly db ent now p = (Except.ok (inv, items), db')) :
    inv.subtotal =
      (pkg.price + p.agent_markup) - p.discount_fixed
        - pkg.price * p.discount_percent / 100
        - resolve_voucher_amount db p.voucher_code pkg.price
        + p.epp_fee_amount.getD 0 := by
  rw [create_on_the_fly_ok db ent now p pkg hpkg] at hres
  simp only [Prod.mk.injEq, Except.ok.injEq] at hres
  obtain ⟨⟨hinv, hitems⟩, hdb⟩ := hres
  subst hinv
  rw [calculate_invoice_totals_subtotal _ _ _ (build_items_ne_nil _ _ _ _ _),
    build_items_sum]
  have e1 : (if p.discount_fixed ≠ 0 ∧ 0 < p.discount_fixed then -p.discount_fixed
      else 0) = -p.discount_fixed := by
    rcases eq_or_lt_of_le hf with h | h
    · simp [← h]
    · simp [h.ne', h]
  have e2 : (if p.discount_percent ≠ 0 ∧ 0 < p.discount_percent then
      -(pkg.price * (p.discount_percent / 100)) else 0) =
      -(pkg.price * (p.discount_percent / 100)) := by
    rcases eq_or_lt_of_le hp0 with h | h
    · simp [← h]
    · simp [h.ne', h]
  have e3 : (if pyTruthy p.voucher_code = true ∧
      0 < resolve_voucher_amount db p.voucher_code pkg.price then
      -resolve_voucher_amount db p.voucher_code pkg.price else 0) =
      -resolve_voucher_amount db p.voucher_code pkg.price := by
    cases hbc : pyTruthy p.voucher_code with
    | false => rw [resolve_voucher_amount_untruthy db _ _ hbc]; simp
    | true =>
      rcases eq_or_lt_of_le hv with h | h
      · simp [← h]
      · simp [h]
  have e4 : (if pyTruthyQ p.epp_fee_amount = true ∧ 0 < p.epp_fee_amount.getD 0 ∧
      pyTruthy p.epp_fee_description = true then p.epp_fee_amount.getD 0 else 0) =
      p.epp_fee_amount.getD 0 := by
    cases hfa : p.epp_fee_amount with
    | none => simp [pyTruthyQ]
    | some a =>
      obtain ⟨ha0, hd⟩ := hfee a hfa
      rcases eq_or_lt_of_le ha0 with h0 | h0
      · simp [pyTruthyQ, ← h0]
      · simp [pyTruthyQ, h0.ne', h0, hd h0]
  rw [e1, e2, e3, e4, pyOrQ_zero]
  ring

/-- Claim C1 witness: the spec scenario (price 1000, markup 50, flat voucher
100) yields subtotal 950. -/
theorem claim_C1_witness :
    ∃ inv items db', create_on_the_fly exDbW exEnt 0 cpW = (Except.ok (inv, items), db') ∧
      inv.subtotal = 950 := by
  refine ⟨_, _, _, rfl, ?_⟩
  have h := claim_C1_subtotal exDbW exEnt 0 cpW pkgW _ _ _ rfl
    (by norm_num [cpW]) (by norm_num [cpW]) (by norm_num [cpW]) (by norm_num [cpW])
    (by simp [resolve_voucher_amount, exDbW, cpW, pkgW, vchW, pyTruthy, pyTruthyQ,
      orEmpty] <;> norm_num)
    (by intro a ha; simp [cpW] at ha) rfl
  rw [h]
  simp [resolve_voucher_amount, exDbW, cpW, pkgW, vchW, pyTruthy, pyTruthyQ, orEmpty] <;>
    norm_num

/-- Claim C4: an unknown package id makes `create_on_the_fly` fail with the
`ValueError` ("NotFoundError") before any row is written — the store is
returned unchanged — and the HTTP layer maps the failure to a 400 client
error. -/
theorem claim_C4_unknown_package (db : Db) (ent : Entropy) (now : ℤ)
    (p : CreateParams)
    (h : db.packages.find? (fun q => q.bubble_id == p.package_id) = none) :
    create_on_the_fly db ent now p =
      (Except.error (PyErr.valueError ("Package not found: " ++ p.package_id)), db) ∧
    api_create_invoice db ent now p = (400, db) := by
  constructor
  · unfold create_on_the_fly
    rw [h]
  · unfold api_create_invoice create_on_the_fly
    rw [h]

/-- Claim C4 witness: creating against an empty store with id `nope`. -/
theorem claim_C4_witness :
    create_on_the_fly exDb0 exEnt 0 cp4 =
      (Except.error (PyErr.valueError ("Package not found: " ++ cp4.package_id)), exDb0) ∧
    api_create_invoice exDb0 exEnt 0 cp4 = (400, exDb0) :=
  claim_C4_unknown_package exDb0 exEnt 0 cp4 rfl

/-- Claim C9: `create_on_the_fly` never validates discounts or vouchers
against the subtotal: whenever the package resolves, creation succeeds even
when the combined reductions exceed price plus markup, and the concrete
overdiscounted run ends with a negative total. -/
theorem claim_C9_never_validates :
    (∀ (db : Db) (ent : Entropy) (now : ℤ) (p : CreateParams) (pkg : Package),
      db.packages.find? (fun q => q.bubble_id == p.package_id) = some pkg →
      pkg.price + p.agent_markup <
        p.discount_fixed + pkg.price * p.discount_percent / 100 +
          resolve_voucher_amount db p.voucher_code pkg.price →
      ∃ inv items db', create_on_the_fly db ent now p = (Except.ok (inv, items), db')) ∧
    (∃ inv items db', create_on_the_fly exDb2 exEnt 0 cp9 = (Except.ok (inv, items), db') ∧
      inv.total_amount < 0) := by
  constructor
  · intro db ent now p pkg hpkg _hex
    rw [create_on_the_fly_ok db ent now p pkg hpkg]
    exact ⟨_, _, _, rfl⟩
  · refine ⟨_, _, _, rfl, ?_⟩
    obtain ⟨-, hs, ht⟩ := calculate_invoice_totals_fields
      (resolve_customer exDb2 exEnt cp9).1
      (mkNewInvoice exEnt 0 cp9 (resolve_customer exDb2 exEnt cp9).2 pkg2
        (resolve_template_id exDb2 cp9.template_id)
        (resolve_sst_rate exDb2 cp9.apply_sst (resolve_template_id exDb2 cp9.template_id))
        (generate_invoice_number (resolve_customer exDb2 exEnt cp9).1)
        (resolve_voucher_amount exDb2 cp9.voucher_code pkg2.price))
      (build_items exEnt
        (mkNewInvoice exEnt 0 cp9 (resolve_customer exDb2 exEnt cp9).2 pkg2
          (resolve_template_id exDb2 cp9.template_id)
          (resolve_sst_rate exDb2 cp9.apply_sst (resolve_template_id exDb2 cp9.template_id))
          (generate_invoice_number (resolve_customer exDb2 exEnt cp9).1)
          (resolve_voucher_amount exDb2 cp9.voucher_code pkg2.price)).bubble_id
        pkg2 cp9 (resolve_voucher_amount exDb2 cp9.voucher_code pkg2.price))
    rw [ht, hs]
    have hsub : (calculate_invoice_totals (resolve_customer exDb2 exEnt cp9).1
        (mkNewInvoice exEnt 0 cp9 (resolve_customer exDb2 exEnt cp9).2 pkg2
          (resolve_template_id exDb2 cp9.template_id)
          (resolve_sst_rate exDb2 cp9.apply_sst (resolve_template_id exDb2 cp9.template_id))
          (generate_invoice_number (resolve_customer exDb2 exEnt cp9).1)
          (resolve_voucher_amount exDb2 cp9.voucher_code pkg2.price))
        (build_items exEnt
          (mkNewInvoice exEnt 0 cp9 (resolve_customer exDb2 exEnt cp9).2 pkg2
            (resolve_template_id exDb2 cp9.template_id)
            (resolve_sst_rate exDb2 cp9.apply_sst (resolve_template_id exDb2 cp9.template_id))
            (generate_invoice_number (resolve_customer exDb2 exEnt cp9).1)
            (resolve_voucher_amount exDb2 cp9.voucher_code pkg2.price)).bubble_id
          pkg2 cp9 (resolve_voucher_amount exDb2 cp9.voucher_code pkg2.price))).subtotal
        = -100 := by
      rw [calculate_invoice_totals_subtotal _ _ _ (build_items_ne_nil _ _ _ _ _),
        build_items_sum]
      norm_num [cp9, pkg2, pyOrQ, pyTruthy, pyTruthyQ, resolve_voucher_amount]
    rw [hsub]
    norm_num

/-- Claim C9 witness: fixed discount 200 against price 100 still succeeds. -/
theorem claim_C9_witness :
    ∃ inv items db', create_on_the_fly exDb2 exEnt 0 cp9 = (Except.ok (inv, items), db') :=
  claim_C9_never_validates.1 exDb2 exEnt 0 cp9 pkg2 rfl
    (by norm_num [cp9, pkg2, resolve_voucher_amount, pyTruthy])

/-- Claim C10: whenever `_calculate_invoice_totals` leaves a nonpositive
subtotal, the SST amount is exactly zero — whatever the rate or flag — and
the total equals the subtotal. -/
theorem claim_C10_nonpositive_subtotal (db : Db) (inv : InvoiceNew)
    (items : List InvoiceNewItem)
    (h : (calculate_invoice_totals db inv items).subtotal ≤ 0) :
    (calculate_invoice_totals db inv items).sst_amount = 0 ∧
    (calculate_invoice_totals db inv items).total_amount =
      (calculate_invoice_totals db inv items).subtotal := by
  obtain ⟨_, hs, ht⟩ := calculate_invoice_totals_fields db inv items
  constructor
  · rw [hs, if_neg (not_lt.mpr h)]
  · rw [ht, hs, if_neg (not_lt.mpr h), add_zero]

/-- A discount-only item collection summing to -5 (claim C10's witness). -/
def exItemNeg : InvoiceNewItem :=
  { bubble_id := "xneg"
    invoice_id := "b6"
    description := "d"
    qty := 1
    unit_price := -5
    total_price := -5
    item_type := "discount"
    sort_order := 100 }

/-- Claim C10 witness: a lone -5 item gives SST 0 and total = subtotal. -/
theorem claim_C10_witness :
    (calculate_invoice_totals exDb0 inv6 [exItemNeg]).sst_amount = 0 ∧
    (calculate_invoice_totals exDb0 inv6 [exItemNeg]).total_amount =
      (calculate_invoice_totals exDb0 inv6 [exItemNeg]).subtotal :=
  claim_C10_nonpositive_subtotal exDb0 inv6 [exItemNeg]
    (by norm_num [calculate_invoice_totals, exItemNeg])

/-- Claim C2 counterexample: with package price 100, fixed discount 200, tax
enabled at the default 8% and the default template permitting SST, the code
stores `sst_amount = 0` although the claimed formula
`subtotal * sst_rate / 100` gives `-8`: the claim's tax equation fails on
negative subtotals. -/
theorem claim_C2_counterexample :
    ((create_on_the_fly exDb2 exEnt 0 cp2).1.toOption.map
      (fun r => (r.1.subtotal, r.1.sst_rate, r.1.sst_amount, r.1.total_amount)))
      = some (-100, 8, 0, -100) ∧
    ¬ ((0 : ℚ) = -100 * (8 / 100)) := by
  constructor
  · simp [create_on_the_fly, exDb2, cp2, pkg2, tplW, exEnt, resolve_customer,
      resolve_voucher_amount, resolve_template_id, resolve_sst_rate,
      generate_invoice_number, mkNewInvoice, build_items, calculate_invoice_totals,
      pyTruthy, pyTruthyQ, pyTruthyZ, pyOrQ, pyOrS, orEmpty, maxByDesc,
      defaultSstRateCfg, Except.toOption]
    norm_num
  · norm_num

/-- Claim C2 (amended): for every invoice finalized through
`create_on_the_fly`, `total_amount = subtotal + sst_amount`, the stored rate
is the resolved one (default rate when tax is enabled and the resolved
template permits it, else zero), and the tax equals
`subtotal * sst_rate / 100` only when the subtotal is positive — a
nonpositive subtotal yields tax zero. -/
theorem claim_C2_amended (db : Db) (ent : Entropy) (now : ℤ) (p : CreateParams)
    (pkg : Package) (inv : InvoiceNew) (items : List InvoiceNewItem) (db' : Db)
    (hpkg : db.packages.find? (fun q => q.bubble_id == p.package_id) = some pkg)
    (hres : create_on_the_fly db ent now p = (Except.ok (inv, items), db')) :
    inv.total_amount = inv.subtotal + inv.sst_amount ∧
    inv.sst_amount =
      (if 0 < inv.subtotal then inv.subtotal * (inv.sst_rate / 100) else 0) ∧
    inv.sst_rate = resolve_sst_rate db p.apply_sst (resolve_template_id db p.template_id) := by
  rw [create_on_the_fly_ok db ent now p pkg hpkg] at hres
  simp only [Prod.mk.injEq, Except.ok.injEq] at hres
  obtain ⟨⟨hinv, hitems⟩, hdb⟩ := hres
  subst hinv
  obtain ⟨hr, hs, ht⟩ := calculate_invoice_totals_fields _ _ _
  refine ⟨ht, ?_, ?_⟩
  · rw [← hr] at hs
    exact hs
  · rw [hr]
    simp [mkNewInvoice]

/-- Claim C2 witness: the spec scenario run satisfies the amended equations
(total 1026 = 950 + 76). -/
theorem claim_C2_witness :
    ∃ inv items db', create_on_the_fly exDbW exEnt 0 cpW = (Except.ok (inv, items), db') ∧
      (inv.total_amount = inv.subtotal + inv.sst_amount ∧
       inv.sst_amount =
         (if 0 < inv.subtotal then inv.subtotal * (inv.sst_rate / 100) else 0) ∧
       inv.sst_rate =
         resolve_sst_rate exDbW cpW.apply_sst (resolve_template_id exDbW cpW.template_id)) :=
  ⟨_, _, _, rfl, claim_C2_amended exDbW exEnt 0 cpW pkgW _ _ _ rfl rfl⟩

/-- Claim C3 (code bug): at the configured width boundary the generator is
not strictly increasing under single-writer execution.  From a store whose
highest number is `INV-999999` it generates `INV-1000000`; once that row is
persisted, the string-ordered `ORDER BY ... DESC` still returns
`INV-999999` as the maximum, so the very next generated number is
`INV-1000000` again — a duplicate that violates the unique
`invoice_number` column. -/
theorem claim_C3_duplicate_number :
    generate_invoice_number exDb3a = "INV-1000000" ∧
    exDb3b.invoices = exDb3a.invoices ++ [inv3b] ∧
    inv3b.invoice_number = "INV-1000000" ∧
    generate_invoice_number exDb3b = "INV-1000000" := by
  refine ⟨?_, rfl, rfl, ?_⟩ <;> decide

/-- Claim C5 counterexample: an invoice whose share expiry equals the
current instant is still returned, although its expiry is not in the
future — the code only rejects strictly past expiries. -/
theorem claim_C5_counterexample :
    get_by_share_token exDb5 5 inv5.share_token = some inv5 ∧
    inv5.share_enabled = true ∧
    inv5.share_expires_at = some 5 ∧
    ¬ ((5 : ℤ) < 5) := by
  refine ⟨?_, rfl, rfl, by omega⟩
  decide

/-- Claim C5 (amended): `get_by_share_token` returns an invoice exactly when
the token lookup finds it, sharing is enabled, and the expiry is absent or
not yet past (`now ≤ expiry`); expired, disabled and nonexistent tokens all
yield the identical `none`. -/
theorem claim_C5_amended (db : Db) (now : ℤ) (token : String) (inv : InvoiceNew) :
    get_by_share_token db now token = some inv ↔
      db.invoices.find? (fun i => i.share_token == token) = some inv ∧
      inv.share_enabled = true ∧
      (inv.share_expires_at = none ∨
        ∃ t, inv.share_expires_at = some t ∧ now ≤ t) := by
  unfold get_by_share_token
  cases hf : db.invoices.find? (fun i => i.share_token == token) with
  | none =>
    constructor
    · intro h
      exact Option.noConfusion h
    · rintro ⟨hfind, -, -⟩
      exact Option.noConfusion hfind
  | some j =>
    constructor
    · intro h
      simp only [] at h
      by_cases he : j.share_enabled
      · rw [if_pos he] at h
        cases hex : j.share_expires_at with
        | none =>
          rw [hex] at h
          obtain rfl : j = inv := by simpa using h
          exact ⟨rfl, he, Or.inl hex⟩
        | some t =>
          rw [hex] at h
          simp only [] at h
          by_cases hlt : t < now
          · rw [if_pos hlt] at h
            exact Option.noConfusion h
          · rw [if_neg hlt] at h
            obtain rfl : j = inv := by simpa using h
            exact ⟨rfl, he, Or.inr ⟨t, hex, not_lt.mp hlt⟩⟩
      · rw [if_neg he] at h
        exact Option.noConfusion h
    · rintro ⟨hfind, hen, hexp⟩
      obtain rfl : j = inv := by simpa using hfind
      simp only []
      rw [if_pos hen]
      rcases hexp with hnone | ⟨t, hsome, hle⟩
      · rw [hnone]
      · rw [hsome]
        simp only []
        rw [if_neg (not_lt.mpr hle)]

/-- Claim C5 amended witness: the boundary invoice is returned at `now = 5`
and the amended right-hand side holds there. -/
theorem claim_C5_witness :
    get_by_share_token exDb5 5 inv5.share_token = some inv5 :=
  (claim_C5_amended exDb5 5 inv5.share_token inv5).mpr
    ⟨by decide, rfl, Or.inr ⟨5, rfl, by omega⟩⟩

/-- Claim C6: `record_view` on an existing invoice bumps its access counter
by exactly one and stamps the viewed time, leaving every other field, every
other invoice, and every other table unchanged; on a missing id it is a
no-op (and, being total, it never raises however often it is called). -/
theorem claim_C6_record_view (db : Db) (now : ℤ) (bid : String) :
    (get_by_id db bid = none → record_view db now bid = db) ∧
    (∀ inv, get_by_id db bid = some inv →
      ((record_view db now bid).items = db.items ∧
       (record_view db now bid).packages = db.packages ∧
       (record_view db now bid).customers = db.customers ∧
       (record_view db now bid).templates = db.templates ∧
       (record_view db now bid).vouchers = db.vouchers) ∧
      ∃ pre post, db.invoices = pre ++ inv :: post ∧
        (∀ x ∈ pre, (x.bubble_id == bid) = false) ∧
        (record_view db now bid).invoices =
          pre ++
            { inv with
              viewed_at := some now
              share_access_count := inv.share_access_count + 1 } :: post) := by
  constructor
  · intro h
    unfold record_view
    rw [h]
  · intro inv hinv
    have hfind : db.invoices.find? (fun i => i.bubble_id == bid) = some inv := hinv
    unfold record_view
    rw [hinv]
    refine ⟨⟨rfl, rfl, rfl, rfl, rfl⟩, ?_⟩
    obtain ⟨pre, post, hl, hpre, hupd⟩ :=
      updateFirst_decomp (fun i => i.bubble_id == bid)
        (fun i =>
          { i with
            viewed_at := some now
            share_access_count := i.share_access_count + 1 })
        db.invoices inv hfind
    exact ⟨pre, post, hl, hpre, by simpa using hupd⟩

/-- Claim C6 witness: on `exDb6` a missing id is a no-op, and viewing `b6`
rewrites exactly that invoice (counter 3 → 4, viewed time stamped). -/
theorem claim_C6_witness :
    record_view exDb6 50 (r"zzz") = exDb6 ∧
    (∃ pre post, exDb6.invoices = pre ++ inv6 :: post ∧
      (∀ x ∈ pre, (x.bubble_id == r"b6") = false) ∧
      (record_view exDb6 50 (r"b6")).invoices =
        pre ++
          { inv6 with
            viewed_at := some 50
            share_access_count := inv6.share_access_count + 1 } :: post) :=
  ⟨(claim_C6_record_view exDb6 50 (r"zzz")).1 rfl,
    ((claim_C6_record_view exDb6 50 (r"b6")).2 inv6 rfl).2⟩

/-- Claim C7 counterexample: a voucher whose flat `discount_amount` is set
to `0` while `discount_percent` is 50 resolves to the percent amount (50 on
price 100), not to the set flat amount — flat precedence follows Python
truthiness, not set-ness. -/
theorem claim_C7_counterexample :
    v7.discount_amount = some 0 ∧
    v7.discount_percent = some 50 ∧
    exDb7.vouchers.find?
      (fun v => v.voucher_code == orEmpty (some (r"ZERO")) && v.active) = some v7 ∧
    resolve_voucher_amount exDb7 (some (r"ZERO")) 100 = 50 ∧
    resolve_voucher_amount exDb7 (some (r"ZERO")) 100 ≠ v7.discount_amount.getD 0 := by
  refine ⟨rfl, rfl, by decide, ?_, ?_⟩
  · simp [resolve_voucher_amount, exDb7, v7, pyTruthy, pyTruthyQ, pyTruthyZ, orEmpty]
  · simp [resolve_voucher_amount, exDb7, v7, pyTruthy, pyTruthyQ, pyTruthyZ, orEmpty]

/-- Claim C7 (amended): when a truthy voucher code resolves to an active
voucher, a nonzero (truthy) flat amount takes precedence; a zero or absent
flat amount falls through to a nonzero percent of the package price.  The
created invoice carries at most one voucher line, at the fixed sort
position 101 with total `-amount`, and every discount line sits at or
before that position (100 or 101). -/
theorem claim_C7_amended (db : Db) (ent : Entropy) (now : ℤ) (p : CreateParams)
    (pkg : Package) (voucher : Voucher) (inv : InvoiceNew)
    (items : List InvoiceNewItem) (db' : Db)
    (hpkg : db.packages.find? (fun q => q.bubble_id == p.package_id) = some pkg)
    (hvc : pyTruthy p.voucher_code = true)
    (hvf : db.vouchers.find?
      (fun v => v.voucher_code == orEmpty p.voucher_code && v.active) = some voucher)
    (hres : create_on_the_fly db ent now p = (Except.ok (inv, items), db')) :
    (∀ a, voucher.discount_amount = some a → a ≠ 0 →
      resolve_voucher_amount db p.voucher_code pkg.price = a) ∧
    (pyTruthyQ voucher.discount_amount = false →
      ∀ k, voucher.discount_percent = some k → k ≠ 0 →
        resolve_voucher_amount db p.voucher_code pkg.price =
          pkg.price * (k : ℚ) / 100) ∧
    (items.filter (fun it => it.item_type == "voucher")).length ≤ 1 ∧
    (∀ it ∈ items, it.item_type = "voucher" →
      it.sort_order = 101 ∧
      it.total_price = -resolve_voucher_amount db p.voucher_code pkg.price) ∧
    (∀ d ∈ items, d.item_type = "discount" → d.sort_order ≤ 101) := by
  rw [create_on_the_fly_ok db ent now p pkg hpkg] at hres
  simp only [Prod.mk.injEq, Except.ok.injEq] at hres
  obtain ⟨⟨hinv, hitems⟩, hdb⟩ := hres
  subst hitems
  refine ⟨?_, ?_, ?_, ?_, ?_⟩
  · intro a ha hne
    simp [resolve_voucher_amount, hvc, hvf, ha, pyTruthyQ, hne]
  · intro hfa k hk hkne
    simp [resolve_voucher_amount, hvc, hvf, hfa, hk, pyTruthyZ, hkne]
  · simp only [build_items]
    split_ifs <;> simp [List.filter_append]
  · simp only [build_items]
    split_ifs <;> simp
  · simp only [build_items]
    split_ifs <;> simp

/-- Claim C7 amended witness: resolving the zero-flat voucher during
creation yields one voucher line at sort 101 with total `-50`. -/
theorem claim_C7_witness :
    ∃ inv items db', create_on_the_fly exDb7 exEnt 0 cp7 = (Except.ok (inv, items), db') ∧
      (items.filter (fun it => it.item_type == "voucher")).length ≤ 1 ∧
      ∀ it ∈ items, it.item_type = "voucher" →
        it.sort_order = 101 ∧
        it.total_price = -resolve_voucher_amount exDb7 cp7.voucher_code pkg2.price := by
  refine ⟨_, _, _, rfl, ?_⟩
  have h := claim_C7_amended exDb7 exEnt 0 cp7 pkg2 v7 _ _ _ rfl (by decide) (by decide) rfl
  exact ⟨h.2.2.1, h.2.2.2.1⟩

/-- Claim C8: in every created invoice the package item comes first with
sort order 0, discount items sit at 100 and above, the voucher item at 101,
and the fee item at 200. -/
theorem claim_C8_sort_orders (db : Db) (ent : Entropy) (now : ℤ) (p : CreateParams)
    (pkg : Package) (inv : InvoiceNew) (items : List InvoiceNewItem) (db' : Db)
    (hpkg : db.packages.find? (fun q => q.bubble_id == p.package_id) = some pkg)
    (hres : create_on_the_fly db ent now p = (Except.ok (inv, items), db')) :
    (∃ it0 rest, items = it0 :: rest ∧ it0.item_type = "package" ∧ it0.sort_order = 0) ∧
    ∀ it ∈ items,
      (it.item_type = "package" → it.sort_order = 0) ∧
      (it.item_type = "discount" → 100 ≤ it.sort_order) ∧
      (it.item_type = "voucher" → it.sort_order = 101) ∧
      (it.item_type = "epp_fee" → it.sort_order = 200) := by
  rw [create_on_the_fly_ok db ent now p pkg hpkg] at hres
  simp only [Prod.mk.injEq, Except.ok.injEq] at hres
  obtain ⟨⟨hinv, hitems⟩, hdb⟩ := hres
  subst hitems
  constructor
  · simp only [build_items, List.singleton_append, List.cons_append]
    exact ⟨_, _, rfl, rfl, rfl⟩
  · simp only [build_items]
    split_ifs <;> simp

/-- Claim C8 witness: a run with both discounts, a voucher and a fee has the
package item first and every sort order as specified. -/
theorem claim_C8_witness :
    ∃ inv items db', create_on_the_fly exDbW exEnt 0 cp8 = (Except.ok (inv, items), db') ∧
      ((∃ it0 rest, items = it0 :: rest ∧ it0.item_type = "package" ∧ it0.sort_order = 0) ∧
       ∀ it ∈ items,
         (it.item_type = "package" → it.sort_order = 0) ∧
         (it.item_type = "discount" → 100 ≤ it.sort_order) ∧
         (it.item_type = "voucher" → it.sort_order = 101) ∧
         (it.item_type = "epp_fee" → it.sort_order = 200)) :=
  ⟨_, _, _, rfl, claim_C8_sort_orders exDbW exEnt 0 cp8 pkgW _ _ _ rfl rfl⟩
